import Mathlib

/-!
# Proxmox monitor bot: threshold alerts and persisted state

Shallow embedding of `src/index.js`: the body of `monitor()` (temperature, CPU and
power checks with their edge-triggered flags and the learned power baseline) and the
state file handling of `loadState()` / `saveState()`.

Modelling conventions.

* A JavaScript number is either `NaN` or a rational. The arithmetic of `monitor()`
  (the relative increase of the power reading) rounds the result of every operation
  to binary64: 53 significant bits, ties to even, gradual underflow down to 2^-1074.
  Overflow to `Infinity` is outside the model: the exponent has no upper bound, which
  gives the comparisons with 30 the same outcome.
  Readings are doubles; `Metric.num` admits any rational, and a statement that needs
  its numbers to be doubles says so with `IsDouble`.
* The metric readers (`getCPUTemp`, `getCPUUsage`, `getPowerConsumption`) are inputs:
  a tick receives the three values they returned, each `null`, `NaN` or a number.
* `sendAlert` catches its own failures, so a tick is a function from the state and the
  reading to the new state and the list of alerts handed to `sendAlert`, in order.
  Ticks run one after the other; the memory figures are only logged and are left out.
* `monitor()` is embedded on state records as the program itself writes them: boolean
  flags and a baseline that is `null`, `NaN` or a number. `loadState()` is embedded on
  arbitrary JavaScript values, since it installs whatever `JSON.parse` returns.
* The text of the state file is identified by what `JSON.parse` does with it, and the
  disk records whether `fs.writeFileSync` succeeds.
-/

namespace ProxmoxMonitor

/-! ## Values returned by the metric readers -/

/-- What a metric reader returns: `null`, `NaN` (from `parseInt` on unparsable text)
or a number. The `baseline_power` slot of the state holds the same kind of value. -/
inductive Metric where
  | null
  | nan
  | num (q : ℚ)
  deriving DecidableEq

namespace Metric

/-- JavaScript truthiness (`ToBoolean`): `null`, `NaN` and `0` are falsy. -/
def truthy : Metric → Bool
  | num q => decide (q ≠ 0)
  | _ => false

/-- JavaScript `ToNumber`; `none` stands for `NaN`. `null` converts to `0`. -/
def toNumber : Metric → Option ℚ
  | null => some 0
  | nan => none
  | num q => some q

/-- The comparison `m > t` against a numeric constant; false when `m` is `NaN`. -/
def gt (m : Metric) (t : ℚ) : Bool :=
  match m.toNumber with
  | some x => decide (x > t)
  | none => false

/-- The comparison `m <= t` against a numeric constant; false when `m` is `NaN`. -/
def le (m : Metric) (t : ℚ) : Bool :=
  match m.toNumber with
  | some x => decide (x ≤ t)
  | none => false

end Metric

/-- `CONFIG.TEMP_THRESHOLD`, in degrees Celsius. -/
def TEMP_THRESHOLD : ℚ := 85

/-! ## State, readings and alerts -/

/-- The record held in the variable `lastState`. -/
structure MonitorState where
  cpu_high : Bool
  temp_high : Bool
  power_high : Bool
  baseline_power : Metric
  deriving DecidableEq

/-- Initial value of `lastState`. -/
def initialState : MonitorState :=
  { cpu_high := false, temp_high := false, power_high := false, baseline_power := Metric.null }

/-- The values obtained at the start of a tick from `getCPUTemp()`, `getCPUUsage()`
and `getPowerConsumption()`. -/
structure Reading where
  temp : Metric
  cpu : Metric
  power : Metric
  deriving DecidableEq

/-- One call `sendAlert(title, description, color)`. The description is a fixed
template; `values` lists the values interpolated into it, in order. -/
structure Alert where
  title : String
  values : List Metric
  color : Nat
  deriving DecidableEq

/-- `Math.round` on a rational: nearest integer, halves rounded up. -/
def mathRound (x : ℚ) : ℚ := (⌊x + 1 / 2⌋ : ℤ)

/-- Nearest integer, a tie going to the even neighbour. -/
def roundHalfEven (y : ℚ) : ℤ :=
  if y - ⌊y⌋ < 1 / 2 then ⌊y⌋
  else if 1 / 2 < y - ⌊y⌋ then ⌊y⌋ + 1
  else if ⌊y⌋ % 2 = 0 then ⌊y⌋
  else ⌊y⌋ + 1

/-- Exponent of the last significant bit of the binary64 values around `x`: 52 below
the exponent of `x`, and never below -1074 (subnormal range). -/
def ulpExponent (x : ℚ) : ℤ := max (Int.log 2 |x| - 52) (-1074)

/-- The binary64 value nearest to `x`, ties to even: the result of an arithmetic
operation whose exact value is `x`. -/
def roundDouble (x : ℚ) : ℚ := (roundHalfEven (x / 2 ^ ulpExponent x) : ℚ) * 2 ^ ulpExponent x

/-- A finite binary64 value: an integer significand below 2^53 in absolute value times
a power of two with exponent from -1074 to 971. -/
def IsDouble (x : ℚ) : Prop :=
  ∃ m k : ℤ, |m| < 2 ^ 53 ∧ -1074 ≤ k ∧ k ≤ 971 ∧ x = m * 2 ^ k

/-- The expression `((power - baseline_power) / baseline_power) * 100` as evaluated in
double arithmetic: the subtraction, the division and the multiplication are each
rounded. -/
def increase (power baseline : ℚ) : ℚ :=
  roundDouble (roundDouble (roundDouble (power - baseline) / baseline) * 100)

/-! ## The body of `monitor()` -/

/-- The block "Controlla temperatura" of `monitor()`. -/
def checkTemp (lastState : MonitorState) (temp : Metric) : MonitorState × List Alert :=
  if temp.truthy && temp.gt TEMP_THRESHOLD && !lastState.temp_high then
    ({ lastState with temp_high := true },
      [{ title := "TEMPERATURA ALTA", values := [temp, Metric.num TEMP_THRESHOLD],
         color := 0xff6b6b }])
  else if temp.truthy && temp.le TEMP_THRESHOLD && lastState.temp_high then
    ({ lastState with temp_high := false },
      [{ title := "TEMPERATURA NORMALE", values := [temp], color := 0x51cf66 }])
  else
    (lastState, [])

/-- The block "Controlla CPU" of `monitor()`. -/
def checkCpu (lastState : MonitorState) (cpu : Metric) : MonitorState × List Alert :=
  if cpu.gt 80 && !lastState.cpu_high then
    ({ lastState with cpu_high := true },
      [{ title := "CPU ALTA", values := [cpu], color := 0xffa94d }])
  else if cpu.le 80 && lastState.cpu_high then
    ({ lastState with cpu_high := false },
      [{ title := "CPU NORMALE", values := [cpu], color := 0x51cf66 }])
  else
    (lastState, [])

/-- First statement of the block "Controlla consumo energetico": the baseline is
taken from the reading when the stored one is falsy and the reading is truthy. -/
def setBaseline (lastState : MonitorState) (power : Metric) : MonitorState :=
  if !lastState.baseline_power.truthy && power.truthy then
    { lastState with baseline_power := power }
  else
    lastState

/-- Second statement of the block "Controlla consumo energetico": the comparison of
the relative increase with 30, guarded by `power && lastState.baseline_power`. Both
guards being truthy, both values are non-zero numbers. -/
def comparePower (lastState : MonitorState) (power : Metric) : MonitorState × List Alert :=
  match power, lastState.baseline_power with
  | Metric.num p, Metric.num b =>
    if p ≠ 0 ∧ b ≠ 0 then
      if increase p b > 30 ∧ lastState.power_high = false then
        ({ lastState with power_high := true },
          [{ title := "CONSUMO ALTO",
             values := [Metric.num p, Metric.num (mathRound (increase p b)), Metric.num b],
             color := 0xff922b }])
      else if increase p b ≤ 30 ∧ lastState.power_high = true then
        ({ lastState with power_high := false },
          [{ title := "CONSUMO NORMALE", values := [], color := 0x51cf66 }])
      else
        (lastState, [])
    else
      (lastState, [])
  | _, _ => (lastState, [])

/-- The block "Controlla consumo energetico" of `monitor()`. -/
def checkPower (lastState : MonitorState) (power : Metric) : MonitorState × List Alert :=
  comparePower (setBaseline lastState power) power

/-- The `try` block of `monitor()`: the three checks in source order, the alerts in
the order they are sent. Nothing in the block throws on a state record, so the `catch`
is never entered. -/
def monitorBody (lastState : MonitorState) (r : Reading) : MonitorState × List Alert :=
  let t := checkTemp lastState r.temp
  let c := checkCpu t.1 r.cpu
  let p := checkPower c.1 r.power
  (p.1, t.2 ++ c.2 ++ p.2)

/-! ## The state file -/

/-- A JavaScript value as held by `lastState` or returned by `JSON.parse`. -/
inductive JSVal where
  | null
  | bool (b : Bool)
  | num (q : ℚ)
  | nan
  | str (s : String)
  | arr (items : List JSVal)
  | obj (fields : List (String × JSVal))

/-- The text of a file, told apart by what `JSON.parse` does with it: it throws a
`SyntaxError`, or returns the value the text denotes. -/
inductive FileText where
  | invalid
  | json (v : JSVal)

/-- The file at `CONFIG.STATE_FILE`: absent, present but failing to read, or text. -/
inductive FileState where
  | missing
  | unreadable
  | text (t : FileText)

/-- The part of the file system the program touches. `writable` tells whether
`fs.writeFileSync` on the state file succeeds. -/
structure Disk where
  file : FileState
  writable : Bool

/-- An exception thrown by `fs` or by `JSON.parse`. -/
inductive JSError where
  | fsError
  | parseError

mutual
/-- What `JSON.stringify` writes for a value, as the value its output text denotes:
`NaN` is written as `null`, everything else as itself. -/
def jsonOf : JSVal → JSVal
  | JSVal.nan => JSVal.null
  | JSVal.arr items => JSVal.arr (jsonOfItems items)
  | JSVal.obj fields => JSVal.obj (jsonOfFields fields)
  | v => v
/-- Elementwise `jsonOf` on the items of an array. -/
def jsonOfItems : List JSVal → List JSVal
  | [] => []
  | v :: vs => jsonOf v :: jsonOfItems vs
/-- Valuewise `jsonOf` on the fields of an object. -/
def jsonOfFields : List (String × JSVal) → List (String × JSVal)
  | [] => []
  | (k, v) :: kvs => (k, jsonOf v) :: jsonOfFields kvs
end

namespace JSON

/-- `JSON.stringify(value, null, 2)`. -/
def stringify (v : JSVal) : FileText := FileText.json (jsonOf v)

/-- `JSON.parse(text)`. -/
def parse : FileText → Except JSError JSVal
  | FileText.invalid => Except.error JSError.parseError
  | FileText.json v => Except.ok v

end JSON

/-- `fs.existsSync(CONFIG.STATE_FILE)`. -/
def existsSync (d : Disk) : Bool :=
  match d.file with
  | FileState.missing => false
  | _ => true

/-- `fs.readFileSync(CONFIG.STATE_FILE, "utf8")`. -/
def readFileSync (d : Disk) : Except JSError FileText :=
  match d.file with
  | FileState.text t => Except.ok t
  | _ => Except.error JSError.fsError

/-- `fs.writeFileSync(CONFIG.STATE_FILE, text)`. -/
def writeFileSync (d : Disk) (t : FileText) : Except JSError Disk :=
  if d.writable then Except.ok { d with file := FileState.text t }
  else Except.error JSError.fsError

/-- The `try` block of `loadState()`: the new value of `lastState`. -/
def loadStateBody (d : Disk) (lastState : JSVal) : Except JSError JSVal :=
  if existsSync d then do
    let data ← readFileSync d
    let v ← JSON.parse data
    pure v
  else
    pure lastState

/-- `loadState()`: the value of `lastState` afterwards. An exception of the `try`
block is caught and logged, leaving `lastState` as it was. -/
def loadState (d : Disk) (lastState : JSVal) : Except JSError JSVal :=
  match loadStateBody d lastState with
  | Except.ok v => Except.ok v
  | Except.error _ => Except.ok lastState

/-- `saveState()`: the disk afterwards. A failing write is caught and logged. -/
def saveState (d : Disk) (lastState : JSVal) : Disk :=
  match writeFileSync d (JSON.stringify lastState) with
  | Except.ok d1 => d1
  | Except.error _ => d

/-- A metric value as a JavaScript value. -/
def Metric.toJS : Metric → JSVal
  | Metric.null => JSVal.null
  | Metric.nan => JSVal.nan
  | Metric.num q => JSVal.num q

/-- The state record as the JavaScript object `lastState` holds, fields in the order
of the object literal in the source. -/
def MonitorState.toJS (s : MonitorState) : JSVal :=
  JSVal.obj [("cpu_high", JSVal.bool s.cpu_high), ("temp_high", JSVal.bool s.temp_high),
    ("power_high", JSVal.bool s.power_high), ("baseline_power", s.baseline_power.toJS)]

/-- Reading a JavaScript value back as a state record: defined on the objects with
the four fields in source order, boolean flags and a baseline that is `null`, `NaN`
or a number. -/
def MonitorState.ofJS : JSVal → Option MonitorState
  | JSVal.obj [("cpu_high", JSVal.bool c), ("temp_high", JSVal.bool t),
      ("power_high", JSVal.bool p), ("baseline_power", b)] =>
    match b with
    | JSVal.null => some ⟨c, t, p, Metric.null⟩
    | JSVal.nan => some ⟨c, t, p, Metric.nan⟩
    | JSVal.num q => some ⟨c, t, p, Metric.num q⟩
    | _ => none
  | _ => none

/-! ## A tick, a run of ticks, a restart -/

/-- Outcome of one call of `monitor()`. -/
structure TickResult where
  state : MonitorState
  alerts : List Alert
  disk : Disk

/-- `monitor()`: the `try` block followed by `saveState()`. -/
def monitor (d : Disk) (lastState : MonitorState) (r : Reading) : TickResult :=
  let b := monitorBody lastState r
  { state := b.1, alerts := b.2, disk := saveState d b.1.toJS }

/-- Consecutive calls of `monitor()`, one per reading: the outcome of every tick. -/
def ticks (d : Disk) (lastState : MonitorState) : List Reading → List TickResult
  | [] => []
  | r :: rs =>
    let t := monitor d lastState r
    t :: ticks t.disk t.state rs

/-- The state after consecutive calls of `monitor()`. -/
def stateAfter (d : Disk) (lastState : MonitorState) : List Reading → MonitorState
  | [] => lastState
  | r :: rs =>
    let t := monitor d lastState r
    stateAfter t.disk t.state rs

/-- A process start up to the first tick: `lastState` has its initial value and
`loadState()` runs. `none` when the value loaded is not a state record. -/
def restart (d : Disk) : Option MonitorState :=
  match loadState d initialState.toJS with
  | Except.ok v => MonitorState.ofJS v
  | Except.error _ => none

/-- What happens to a running installation: a tick, or a restart of the process. -/
inductive Event where
  | tick (r : Reading)
  | restart

/-- The disk and the in-memory state after a sequence of events; `none` when a
restart loads something that is not a state record. -/
def run (d : Disk) (lastState : MonitorState) : List Event → Option (Disk × MonitorState)
  | [] => some (d, lastState)
  | Event.tick r :: es =>
    let t := monitor d lastState r
    run t.disk t.state es
  | Event.restart :: es =>
    match restart d with
    | some s => run d s es
    | none => none

/-! ## Sample inputs -/

/-- A writable disk with no state file yet. -/
def freshDisk : Disk := { file := FileState.missing, writable := true }

/-- All flags false and a baseline of 40 already learned. -/
def calmState : MonitorState :=
  { cpu_high := false, temp_high := false, power_high := false, baseline_power := Metric.num 40 }

/-- The double nearest to 5.348: what `getPowerConsumption()` returns when `energy_uj`
reads 5348000. -/
def power5348 : ℚ := 6021312701794353 / 1125899906842624

/-- The double nearest to 6.9524: what `getPowerConsumption()` returns when `energy_uj`
reads 6952400. -/
def power69524 : ℚ := 7827706512332659 / 1125899906842624

/-- All flags true over a baseline of 40. -/
def alarmState : MonitorState :=
  { cpu_high := true, temp_high := true, power_high := true, baseline_power := Metric.num 40 }

/-- The invariant of the power check: when `power_high` is true the baseline is a
non-zero number. -/
def PowerInv (s : MonitorState) : Prop :=
  s.power_high = true → ∃ b : ℚ, s.baseline_power = Metric.num b ∧ b ≠ 0

/-- All alerts of a run of ticks, in the order sent. -/
def alertsOf : List TickResult → List Alert
  | [] => []
  | t :: ts => t.alerts ++ alertsOf ts

/-- Titles of the alerts, in order. -/
def titles (alerts : List Alert) : List String := alerts.map Alert.title


/-! ## Rounding to binary64 -/

theorem roundHalfEven_intCast (n : ℤ) : roundHalfEven (n : ℚ) = n := by
  simp [roundHalfEven]

theorem roundHalfEven_eq_of_near (y : ℚ) (n : ℤ) (h1 : (n : ℚ) - 1 / 2 < y)
    (h2 : y < n + 1 / 2) : roundHalfEven y = n := by
  unfold roundHalfEven
  have hf1 : (⌊y⌋ : ℚ) ≤ y := Int.floor_le y
  have hf2 : y < ⌊y⌋ + 1 := Int.lt_floor_add_one y
  split_ifs with h3 h4 h5
  · have h6 : (n : ℚ) - 1 < ⌊y⌋ := by linarith
    have h7 : (⌊y⌋ : ℚ) < n + 1 := by linarith
    have h8 : n - 1 < ⌊y⌋ := by exact_mod_cast h6
    have h9 : ⌊y⌋ < n + 1 := by exact_mod_cast h7
    omega
  · have h6 : (n : ℚ) - 1 < ⌊y⌋ + 1 := by linarith
    have h7 : (⌊y⌋ : ℚ) + 1 < n + 1 := by linarith
    have h8 : n - 1 < ⌊y⌋ + 1 := by exact_mod_cast h6
    have h9 : ⌊y⌋ + 1 < n + 1 := by exact_mod_cast h7
    omega
  · have h6 : y - ⌊y⌋ = 1 / 2 := le_antisymm (not_lt.mp h4) (not_lt.mp h3)
    have h7 : (n : ℚ) - 1 < ⌊y⌋ := by linarith
    have h8 : (⌊y⌋ : ℚ) < n := by linarith
    have h9 : n - 1 < ⌊y⌋ := by exact_mod_cast h7
    have h10 : ⌊y⌋ < n := by exact_mod_cast h8
    omega
  · have h6 : y - ⌊y⌋ = 1 / 2 := le_antisymm (not_lt.mp h4) (not_lt.mp h3)
    have h7 : (n : ℚ) - 1 < ⌊y⌋ := by linarith
    have h8 : (⌊y⌋ : ℚ) < n := by linarith
    have h9 : n - 1 < ⌊y⌋ := by exact_mod_cast h7
    have h10 : ⌊y⌋ < n := by exact_mod_cast h8
    omega

theorem roundHalfEven_nonneg (y : ℚ) (h : 0 ≤ y) : 0 ≤ roundHalfEven y := by
  unfold roundHalfEven
  have hf : 0 ≤ ⌊y⌋ := Int.floor_nonneg.mpr h
  split_ifs <;> omega

theorem roundHalfEven_nonpos (y : ℚ) (h : y ≤ 0) : roundHalfEven y ≤ 0 := by
  unfold roundHalfEven
  have hf1 : (⌊y⌋ : ℚ) ≤ y := Int.floor_le y
  have hf : ⌊y⌋ ≤ 0 := by
    have : (⌊y⌋ : ℚ) ≤ 0 := le_trans hf1 h
    exact_mod_cast this
  have hneg : ¬ y - ⌊y⌋ < 1 / 2 → ⌊y⌋ + 1 ≤ 0 := by
    intro h3
    have h4 : (⌊y⌋ : ℚ) < 0 := by linarith [not_lt.mp h3]
    have h5 : ⌊y⌋ < 0 := by exact_mod_cast h4
    omega
  split_ifs with h3 h4 h5
  · exact hf
  · exact hneg h3
  · exact hf
  · exact hneg h3

theorem two_zpow_pos (e : ℤ) : (0 : ℚ) < 2 ^ e := zpow_pos (by norm_num) e

theorem roundDouble_zero : roundDouble 0 = 0 := by
  have h := roundHalfEven_intCast 0
  simp only [Int.cast_zero] at h
  simp [roundDouble, h]

theorem roundDouble_nonneg (x : ℚ) (h : 0 ≤ x) : 0 ≤ roundDouble x := by
  unfold roundDouble
  have h1 : 0 ≤ roundHalfEven (x / 2 ^ ulpExponent x) :=
    roundHalfEven_nonneg _ (div_nonneg h (two_zpow_pos _).le)
  have h2 : (0 : ℚ) ≤ roundHalfEven (x / 2 ^ ulpExponent x) := by exact_mod_cast h1
  exact mul_nonneg h2 (two_zpow_pos _).le

theorem roundDouble_nonpos (x : ℚ) (h : x ≤ 0) : roundDouble x ≤ 0 := by
  unfold roundDouble
  have h1 : roundHalfEven (x / 2 ^ ulpExponent x) ≤ 0 :=
    roundHalfEven_nonpos _ (div_nonpos_of_nonpos_of_nonneg h (two_zpow_pos _).le)
  have h2 : (roundHalfEven (x / 2 ^ ulpExponent x) : ℚ) ≤ 0 := by exact_mod_cast h1
  exact mul_nonpos_of_nonpos_of_nonneg h2 (two_zpow_pos _).le

theorem log_two_eq (r : ℚ) (k : ℤ) (h1 : (2 : ℚ) ^ k ≤ r) (h2 : r < 2 ^ (k + 1)) :
    Int.log 2 r = k := by
  have hr : 0 < r := lt_of_lt_of_le (two_zpow_pos k) h1
  have h3 : k ≤ Int.log 2 r := by
    apply (Int.zpow_le_iff_le_log (by norm_num) hr).mp
    simpa using h1
  have h4 : Int.log 2 r < k + 1 := by
    apply (Int.lt_zpow_iff_log_lt (by norm_num) hr).mp
    simpa using h2
  omega

/-- Rounding of a value in a normal binade, away from a tie. -/
theorem roundDouble_eq_of_near (x : ℚ) (e n : ℤ) (he : -1074 ≤ e)
    (h1 : (2 : ℚ) ^ (e + 52) ≤ |x|) (h2 : |x| < 2 ^ (e + 53))
    (h3 : ((n : ℚ) - 1 / 2) * 2 ^ e < x) (h4 : x < (n + 1 / 2) * 2 ^ e) :
    roundDouble x = n * 2 ^ e := by
  have hlog : Int.log 2 |x| = e + 52 := log_two_eq _ _ h1 (by
    have : e + 52 + 1 = e + 53 := by ring
    rw [this]; exact h2)
  have hu : ulpExponent x = e := by
    unfold ulpExponent
    rw [hlog]
    have : e + 52 - 52 = e := by ring
    rw [this]
    exact max_eq_left he
  unfold roundDouble
  rw [hu]
  have hp := two_zpow_pos e
  rw [roundHalfEven_eq_of_near (x / 2 ^ e) n]
  · rw [lt_div_iff₀ hp]; exact h3
  · rw [div_lt_iff₀ hp]; exact h4


theorem ulpExponent_le_of_isDouble (m k : ℤ) (hm : |m| < 2 ^ 53) (hk : -1074 ≤ k)
    (hm0 : m ≠ 0) : ulpExponent ((m : ℚ) * 2 ^ k) ≤ k := by
  unfold ulpExponent
  apply max_le _ hk
  have hpos : (0 : ℚ) < |(m : ℚ) * 2 ^ k| := abs_pos.mpr
    (mul_ne_zero (by exact_mod_cast hm0) (two_zpow_pos k).ne.symm)
  have hlt : |(m : ℚ) * 2 ^ k| < 2 ^ (k + 53) := by
    rw [abs_mul, abs_of_pos (two_zpow_pos k), zpow_add₀ (by norm_num : (2 : ℚ) ≠ 0), mul_comm]
    apply mul_lt_mul_of_pos_left _ (two_zpow_pos k)
    have : ((|m| : ℤ) : ℚ) < ((2 ^ 53 : ℤ) : ℚ) := by exact_mod_cast hm
    rw [Int.cast_abs] at this
    norm_num at this ⊢
    exact this
  have h := (Int.lt_zpow_iff_log_lt (by norm_num : 1 < 2) hpos).mp (by simpa using hlt)
  omega

theorem roundDouble_of_isDouble (x : ℚ) (h : IsDouble x) : roundDouble x = x := by
  obtain ⟨m, k, hm, hk, _, rfl⟩ := h
  by_cases hm0 : m = 0
  · subst hm0; simp [roundDouble_zero]
  · have he := ulpExponent_le_of_isDouble m k hm hk hm0
    unfold roundDouble
    generalize ulpExponent ((m : ℚ) * 2 ^ k) = e at he
    obtain ⟨j, hj⟩ : ∃ j : ℕ, k - e = j := ⟨(k - e).toNat, by omega⟩
    have hk2 : k = e + j := by omega
    have hq : (m : ℚ) * 2 ^ k / 2 ^ e = ((m * 2 ^ j : ℤ) : ℚ) := by
      rw [hk2, zpow_add₀ (by norm_num : (2 : ℚ) ≠ 0), zpow_natCast]
      field_simp
      ring
    rw [hq, roundHalfEven_intCast, hk2, zpow_add₀ (by norm_num : (2 : ℚ) ≠ 0), zpow_natCast]
    push_cast
    ring


theorem isDouble_of_int (n : ℤ) (h : |n| < 2 ^ 53) : IsDouble (n : ℚ) :=
  ⟨n, 0, h, by norm_num, by norm_num, by simp⟩

/-- The core of Sterbenz's lemma: a difference of two doubles that is no larger in
absolute value than either of them is a double. -/
theorem isDouble_sub (x y : ℚ) (hx : IsDouble x) (hy : IsDouble y)
    (h1 : |x - y| ≤ |x|) (h2 : |x - y| ≤ |y|) : IsDouble (x - y) := by
  obtain ⟨m, k, hm, hk, hk9, rfl⟩ := hx
  obtain ⟨n, l, hn, hl, hl9, rfl⟩ := hy
  have h20 : (2 : ℚ) ≠ 0 := by norm_num
  rcases le_total k l with hkl | hkl
  · obtain ⟨j, hj⟩ : ∃ j : ℕ, l - k = j := ⟨(l - k).toNat, by omega⟩
    have hl2 : l = k + j := by omega
    have hd : (m : ℚ) * 2 ^ k - n * 2 ^ l = ((m - n * 2 ^ j : ℤ) : ℚ) * 2 ^ k := by
      rw [hl2, zpow_add₀ h20, zpow_natCast]; push_cast; ring
    refine ⟨m - n * 2 ^ j, k, ?_, hk, hk9, hd⟩
    rw [hd, abs_mul, abs_mul, abs_of_pos (two_zpow_pos k)] at h1
    have h3 := le_of_mul_le_mul_right h1 (two_zpow_pos k)
    have h4 : |m - n * 2 ^ j| ≤ |m| := by exact_mod_cast h3
    exact lt_of_le_of_lt h4 hm
  · obtain ⟨j, hj⟩ : ∃ j : ℕ, k - l = j := ⟨(k - l).toNat, by omega⟩
    have hk2 : k = l + j := by omega
    have hd : (m : ℚ) * 2 ^ k - n * 2 ^ l = ((m * 2 ^ j - n : ℤ) : ℚ) * 2 ^ l := by
      rw [hk2, zpow_add₀ h20, zpow_natCast]; push_cast; ring
    refine ⟨m * 2 ^ j - n, l, ?_, hl, hl9, hd⟩
    rw [hd, abs_mul, abs_mul, abs_of_pos (two_zpow_pos l)] at h2
    have h3 := le_of_mul_le_mul_right h2 (two_zpow_pos l)
    have h4 : |m * 2 ^ j - n| ≤ |n| := by exact_mod_cast h3
    exact lt_of_le_of_lt h4 hn

theorem roundDouble_three_tenths :
    roundDouble (3 / 10) = 5404319552844595 / 18014398509481984 := by
  have h := roundDouble_eq_of_near (3 / 10) (-54) 5404319552844595 (by norm_num)
    (by norm_num [abs_of_pos]) (by norm_num [abs_of_pos]) (by norm_num) (by norm_num)
  rw [h]; norm_num

theorem roundDouble_thirty :
    roundDouble (5404319552844595 / 18014398509481984 * 100) = 30 := by
  have h := roundDouble_eq_of_near (5404319552844595 / 18014398509481984 * 100) (-48)
    8444249301319680 (by norm_num)
    (by norm_num [abs_of_pos]) (by norm_num [abs_of_pos]) (by norm_num) (by norm_num)
  rw [h]; norm_num

theorem increase_of_ratio (p b : ℚ) (hd : IsDouble (p - b))
    (hr : (p - b) / b = 3 / 10) : increase p b = 30 := by
  unfold increase
  rw [roundDouble_of_isDouble _ hd, hr, roundDouble_three_tenths, roundDouble_thirty]

theorem increase_at_threshold (b : ℚ) (hb : b ≠ 0) (hdb : IsDouble b)
    (hdp : IsDouble (b + 30 / 100 * b)) : increase (b + 30 / 100 * b) b = 30 := by
  apply increase_of_ratio
  · apply isDouble_sub _ _ hdp hdb
    · have : b + 30 / 100 * b - b = 3 / 10 * b := by ring
      rw [this]
      have h2 : b + 30 / 100 * b = 13 / 10 * b := by ring
      rw [h2, abs_mul, abs_mul]
      apply mul_le_mul_of_nonneg_right _ (abs_nonneg b)
      norm_num [abs_of_pos]
    · have : b + 30 / 100 * b - b = 3 / 10 * b := by ring
      rw [this, abs_mul]
      have h3 : |(3 / 10 : ℚ)| ≤ 1 := by norm_num [abs_of_pos]
      calc |(3 / 10 : ℚ)| * |b| ≤ 1 * |b| := mul_le_mul_of_nonneg_right h3 (abs_nonneg b)
        _ = |b| := one_mul _
  · field_simp; ring

theorem increase_self (p : ℚ) : increase p p = 0 := by
  simp [increase, roundDouble_zero]

theorem increase_zero_left (b : ℚ) : increase 0 b ≤ 0 := by
  unfold increase
  apply roundDouble_nonpos
  apply mul_nonpos_of_nonpos_of_nonneg _ (by norm_num)
  apply roundDouble_nonpos
  rcases le_total 0 b with h | h
  · exact div_nonpos_iff.mpr (Or.inr ⟨roundDouble_nonpos _ (by linarith), h⟩)
  · exact div_nonpos_iff.mpr (Or.inl ⟨roundDouble_nonneg _ (by linarith), h⟩)

theorem increase_pos_ne_zero (p b : ℚ) (h : increase p b > 30) : p ≠ 0 := by
  intro hp
  subst hp
  have := increase_zero_left b
  linarith

theorem increase_53_40 : increase 53 40 = 65 / 2 := by
  unfold increase
  have h1 : roundDouble (53 - 40) = 13 := by
    have := roundDouble_of_isDouble _ (isDouble_of_int 13 (by norm_num))
    norm_num at this ⊢
    exact this
  have h2 : roundDouble (13 / 40) = 5854679515581645 / 18014398509481984 := by
    have h := roundDouble_eq_of_near (13 / 40) (-54) 5854679515581645 (by norm_num)
      (by norm_num [abs_of_pos]) (by norm_num [abs_of_pos]) (by norm_num) (by norm_num)
    rw [h]; norm_num
  have h3 : roundDouble (5854679515581645 / 18014398509481984 * 100) = 65 / 2 := by
    have h := roundDouble_eq_of_near (5854679515581645 / 18014398509481984 * 100) (-47)
      4573968371548160 (by norm_num)
      (by norm_num [abs_of_pos]) (by norm_num [abs_of_pos]) (by norm_num) (by norm_num)
    rw [h]; norm_num
  rw [h1, h2, h3]

theorem increase_50_40 : increase 50 40 = 25 := by
  unfold increase
  have h1 : roundDouble (50 - 40) = 10 := by
    have := roundDouble_of_isDouble _ (isDouble_of_int 10 (by norm_num))
    norm_num at this ⊢
    exact this
  have h2 : roundDouble (10 / 40) = 1 / 4 := by
    have := roundDouble_of_isDouble (1 / 4)
      ⟨1, -2, by norm_num, by norm_num, by norm_num, by norm_num⟩
    norm_num at this ⊢
    exact this
  have h3 : roundDouble (1 / 4 * 100) = 25 := by
    have := roundDouble_of_isDouble _ (isDouble_of_int 25 (by norm_num))
    norm_num at this ⊢
    exact this
  rw [h1, h2, h3]

theorem increase_60_40 : increase 60 40 = 50 := by
  unfold increase
  have h1 : roundDouble (60 - 40) = 20 := by
    have := roundDouble_of_isDouble _ (isDouble_of_int 20 (by norm_num))
    norm_num at this ⊢
    exact this
  have h2 : roundDouble (20 / 40) = 1 / 2 := by
    have := roundDouble_of_isDouble (1 / 2)
      ⟨1, -1, by norm_num, by norm_num, by norm_num, by norm_num⟩
    norm_num at this ⊢
    exact this
  have h3 : roundDouble (1 / 2 * 100) = 50 := by
    have := roundDouble_of_isDouble _ (isDouble_of_int 50 (by norm_num))
    norm_num at this ⊢
    exact this
  rw [h1, h2, h3]

theorem roundDouble_5348 : roundDouble (5348000 / 1000000) = power5348 := by
  have h := roundDouble_eq_of_near (5348000 / 1000000) (-50) 6021312701794353 (by norm_num)
    (by norm_num [abs_of_pos]) (by norm_num [abs_of_pos]) (by norm_num) (by norm_num)
  rw [h]; norm_num [power5348]

theorem roundDouble_69524 : roundDouble (6952400 / 1000000) = power69524 := by
  have h := roundDouble_eq_of_near (6952400 / 1000000) (-50) 7827706512332659 (by norm_num)
    (by norm_num [abs_of_pos]) (by norm_num [abs_of_pos]) (by norm_num) (by norm_num)
  rw [h]; norm_num [power69524]

theorem increase_69524_5348 : increase power69524 power5348 = 30 := by
  unfold increase
  have h1 : roundDouble (power69524 - power5348) = 903196905269153 / 562949953421312 := by
    have h := roundDouble_of_isDouble (power69524 - power5348)
      ⟨7225575242153224, -52, by norm_num, by norm_num, by norm_num,
        by norm_num [power69524, power5348]⟩
    rw [h]; norm_num [power69524, power5348]
  have h2 : roundDouble (903196905269153 / 562949953421312 / power5348)
      = 5404319552844595 / 18014398509481984 := by
    have h := roundDouble_eq_of_near (903196905269153 / 562949953421312 / power5348) (-54)
      5404319552844595 (by norm_num)
      (by norm_num [abs_of_pos, power5348]) (by norm_num [abs_of_pos, power5348])
      (by norm_num [power5348]) (by norm_num [power5348])
    rw [h]; norm_num
  rw [h1, h2, roundDouble_thirty]

/-! ## Frame and title lemmas -/

theorem checkTemp_frame (s : MonitorState) (t : Metric) :
    (checkTemp s t).1.cpu_high = s.cpu_high ∧ (checkTemp s t).1.power_high = s.power_high ∧
    (checkTemp s t).1.baseline_power = s.baseline_power := by
  unfold checkTemp; split_ifs <;> simp

theorem checkCpu_frame (s : MonitorState) (c : Metric) :
    (checkCpu s c).1.temp_high = s.temp_high ∧ (checkCpu s c).1.power_high = s.power_high ∧
    (checkCpu s c).1.baseline_power = s.baseline_power := by
  unfold checkCpu; split_ifs <;> simp

theorem setBaseline_frame (s : MonitorState) (p : Metric) :
    (setBaseline s p).temp_high = s.temp_high ∧ (setBaseline s p).cpu_high = s.cpu_high ∧
    (setBaseline s p).power_high = s.power_high := by
  unfold setBaseline; split_ifs <;> simp

theorem comparePower_frame (s : MonitorState) (p : Metric) :
    (comparePower s p).1.temp_high = s.temp_high ∧ (comparePower s p).1.cpu_high = s.cpu_high ∧
    (comparePower s p).1.baseline_power = s.baseline_power := by
  unfold comparePower; split
  · split_ifs <;> simp
  · simp

theorem checkPower_frame (s : MonitorState) (p : Metric) :
    (checkPower s p).1.temp_high = s.temp_high ∧ (checkPower s p).1.cpu_high = s.cpu_high := by
  unfold checkPower
  exact ⟨(comparePower_frame _ _).1.trans (setBaseline_frame _ _).1,
    (comparePower_frame _ _).2.1.trans (setBaseline_frame _ _).2.1⟩

theorem checkTemp_titles (s : MonitorState) (t : Metric) :
    ∀ x ∈ titles (checkTemp s t).2, x = "TEMPERATURA ALTA" ∨ x = "TEMPERATURA NORMALE" := by
  unfold checkTemp titles; split_ifs <;> simp

theorem checkCpu_titles (s : MonitorState) (c : Metric) :
    ∀ x ∈ titles (checkCpu s c).2, x = "CPU ALTA" ∨ x = "CPU NORMALE" := by
  unfold checkCpu titles; split_ifs <;> simp

theorem checkPower_titles (s : MonitorState) (p : Metric) :
    ∀ x ∈ titles (checkPower s p).2, x = "CONSUMO ALTO" ∨ x = "CONSUMO NORMALE" := by
  unfold checkPower comparePower titles; split
  · split_ifs <;> simp
  · simp

theorem titles_monitor (d : Disk) (s : MonitorState) (r : Reading) :
    titles (monitor d s r).alerts =
      titles (checkTemp s r.temp).2 ++ titles (checkCpu (checkTemp s r.temp).1 r.cpu).2 ++
        titles (checkPower (checkCpu (checkTemp s r.temp).1 r.cpu).1 r.power).2 := by
  simp [monitor, monitorBody, titles]

theorem count_temp_monitor (d : Disk) (s : MonitorState) (r : Reading) (x : String)
    (hx : x = "TEMPERATURA ALTA" ∨ x = "TEMPERATURA NORMALE") :
    (titles (monitor d s r).alerts).count x = (titles (checkTemp s r.temp).2).count x := by
  rw [titles_monitor, List.count_append, List.count_append]
  have h1 : (titles (checkCpu (checkTemp s r.temp).1 r.cpu).2).count x = 0 := by
    apply List.count_eq_zero_of_not_mem
    intro hm
    rcases checkCpu_titles _ _ x hm with h | h <;> rcases hx with hx | hx <;>
      · rw [hx] at h; revert h; decide
  have h2 : (titles (checkPower (checkCpu (checkTemp s r.temp).1 r.cpu).1 r.power).2).count x
      = 0 := by
    apply List.count_eq_zero_of_not_mem
    intro hm
    rcases checkPower_titles _ _ x hm with h | h <;> rcases hx with hx | hx <;>
      · rw [hx] at h; revert h; decide
  omega


theorem count_cpu_monitor (d : Disk) (s : MonitorState) (r : Reading) (x : String)
    (hx : x = "CPU ALTA" ∨ x = "CPU NORMALE") :
    (titles (monitor d s r).alerts).count x =
      (titles (checkCpu (checkTemp s r.temp).1 r.cpu).2).count x := by
  rw [titles_monitor, List.count_append, List.count_append]
  have h1 : (titles (checkTemp s r.temp).2).count x = 0 := by
    apply List.count_eq_zero_of_not_mem
    intro hm
    rcases checkTemp_titles _ _ x hm with h | h <;> rcases hx with hx | hx <;>
      · rw [hx] at h; revert h; decide
  have h2 : (titles (checkPower (checkCpu (checkTemp s r.temp).1 r.cpu).1 r.power).2).count x
      = 0 := by
    apply List.count_eq_zero_of_not_mem
    intro hm
    rcases checkPower_titles _ _ x hm with h | h <;> rcases hx with hx | hx <;>
      · rw [hx] at h; revert h; decide
  omega

theorem count_power_monitor (d : Disk) (s : MonitorState) (r : Reading) (x : String)
    (hx : x = "CONSUMO ALTO" ∨ x = "CONSUMO NORMALE") :
    (titles (monitor d s r).alerts).count x =
      (titles (checkPower (checkCpu (checkTemp s r.temp).1 r.cpu).1 r.power).2).count x := by
  rw [titles_monitor, List.count_append, List.count_append]
  have h1 : (titles (checkTemp s r.temp).2).count x = 0 := by
    apply List.count_eq_zero_of_not_mem
    intro hm
    rcases checkTemp_titles _ _ x hm with h | h <;> rcases hx with hx | hx <;>
      · rw [hx] at h; revert h; decide
  have h2 : (titles (checkCpu (checkTemp s r.temp).1 r.cpu).2).count x = 0 := by
    apply List.count_eq_zero_of_not_mem
    intro hm
    rcases checkCpu_titles _ _ x hm with h | h <;> rcases hx with hx | hx <;>
      · rw [hx] at h; revert h; decide
  omega

theorem monitor_temp_high (d : Disk) (s : MonitorState) (r : Reading) :
    (monitor d s r).state.temp_high = (checkTemp s r.temp).1.temp_high := by
  simp only [monitor, monitorBody]
  rw [(checkPower_frame _ _).1, (checkCpu_frame _ _).1]

theorem monitor_cpu_high (d : Disk) (s : MonitorState) (r : Reading) :
    (monitor d s r).state.cpu_high = (checkCpu (checkTemp s r.temp).1 r.cpu).1.cpu_high := by
  simp only [monitor, monitorBody]
  rw [(checkPower_frame _ _).2]

theorem monitor_state (d : Disk) (s : MonitorState) (r : Reading) :
    (monitor d s r).state = (checkPower (checkCpu (checkTemp s r.temp).1 r.cpu).1 r.power).1 := by
  simp only [monitor, monitorBody]

/-! ## Single steps of each check -/

theorem checkTemp_above (s : MonitorState) (v : ℚ) (hv : v > TEMP_THRESHOLD) :
    (checkTemp s (Metric.num v)).1.temp_high = true ∧
    (titles (checkTemp s (Metric.num v)).2).count "TEMPERATURA ALTA"
      = if s.temp_high then 0 else 1 := by
  have h0 : v ≠ 0 := by unfold TEMP_THRESHOLD at hv; intro h; rw [h] at hv; norm_num at hv
  have h1 : ¬ v ≤ TEMP_THRESHOLD := not_le.mpr hv
  have h2 : TEMP_THRESHOLD < v := hv
  cases hs : s.temp_high <;>
    simp [checkTemp, titles, Metric.truthy, Metric.gt, Metric.le, Metric.toNumber, h0, h1, h2, hs]

theorem checkCpu_above (s : MonitorState) (v : ℚ) (hv : v > 80) :
    (checkCpu s (Metric.num v)).1.cpu_high = true ∧
    (titles (checkCpu s (Metric.num v)).2).count "CPU ALTA"
      = if s.cpu_high then 0 else 1 := by
  have h1 : ¬ v ≤ 80 := not_le.mpr hv
  have h2 : (80 : ℚ) < v := hv
  cases hs : s.cpu_high <;>
    simp [checkCpu, titles, Metric.gt, Metric.le, Metric.toNumber, h1, h2, hs]

theorem checkPower_above (s : MonitorState) (p b : ℚ) (hb : s.baseline_power = Metric.num b)
    (hb0 : b ≠ 0) (hp : increase p b > 30) :
    (checkPower s (Metric.num p)).1.power_high = true ∧
    (checkPower s (Metric.num p)).1.baseline_power = Metric.num b ∧
    (titles (checkPower s (Metric.num p)).2).count "CONSUMO ALTO"
      = if s.power_high then 0 else 1 := by
  have hp0 : p ≠ 0 := increase_pos_ne_zero p b hp
  have h1 : ¬ increase p b ≤ 30 := not_le.mpr hp
  have h2 : (30 : ℚ) < increase p b := hp
  have hset : setBaseline s (Metric.num p) = s := by
    simp [setBaseline, hb, Metric.truthy, hb0]
  cases hs : s.power_high <;>
    simp [checkPower, hset, comparePower, hb, titles, hp0, hb0, h1, h2, hs]


/-! ## Runs of ticks above a threshold -/

theorem count_alertsOf_zero (x : String) (tr : List TickResult)
    (h : ∀ t ∈ tr, (titles t.alerts).count x = 0) : (titles (alertsOf tr)).count x = 0 := by
  induction tr with
  | nil => simp [alertsOf, titles]
  | cons t ts ih =>
    have h1 := h t (List.mem_cons_self _ _)
    have h2 := ih (fun u hu => h u (List.mem_cons_of_mem _ hu))
    simp only [titles, alertsOf, List.map_append, List.count_append] at h1 h2 ⊢
    omega

theorem temp_ticks_above (rs : List Reading) :
    ∀ (d : Disk) (s : MonitorState), s.temp_high = true →
      (∀ x ∈ rs, ∃ v, x.temp = Metric.num v ∧ v > TEMP_THRESHOLD) →
      ∀ t ∈ ticks d s rs,
        t.state.temp_high = true ∧ (titles t.alerts).count "TEMPERATURA ALTA" = 0 := by
  induction rs with
  | nil => intro d s _ _ t ht; simp [ticks] at ht
  | cons r rs ih =>
    intro d s hs hall t ht
    obtain ⟨v, hv, hgt⟩ := hall r (List.mem_cons_self _ _)
    have hstep := checkTemp_above s v hgt
    have hflag : (monitor d s r).state.temp_high = true := by
      rw [monitor_temp_high, hv]; exact hstep.1
    have hcount : (titles (monitor d s r).alerts).count "TEMPERATURA ALTA" = 0 := by
      rw [count_temp_monitor d s r _ (Or.inl rfl), hv, hstep.2, hs]; rfl
    simp only [ticks, List.mem_cons] at ht
    rcases ht with ht | ht
    · subst ht; exact ⟨hflag, hcount⟩
    · exact ih _ _ hflag (fun x hx => hall x (List.mem_cons_of_mem _ hx)) t ht

theorem cpu_ticks_above (rs : List Reading) :
    ∀ (d : Disk) (s : MonitorState), s.cpu_high = true →
      (∀ x ∈ rs, ∃ v, x.cpu = Metric.num v ∧ v > 80) →
      ∀ t ∈ ticks d s rs,
        t.state.cpu_high = true ∧ (titles t.alerts).count "CPU ALTA" = 0 := by
  induction rs with
  | nil => intro d s _ _ t ht; simp [ticks] at ht
  | cons r rs ih =>
    intro d s hs hall t ht
    obtain ⟨v, hv, hgt⟩ := hall r (List.mem_cons_self _ _)
    have hs1 : (checkTemp s r.temp).1.cpu_high = true := by
      rw [(checkTemp_frame _ _).1]; exact hs
    have hstep := checkCpu_above (checkTemp s r.temp).1 v hgt
    have hflag : (monitor d s r).state.cpu_high = true := by
      rw [monitor_cpu_high, hv]; exact hstep.1
    have hcount : (titles (monitor d s r).alerts).count "CPU ALTA" = 0 := by
      rw [count_cpu_monitor d s r _ (Or.inl rfl), hv, hstep.2, hs1]; rfl
    simp only [ticks, List.mem_cons] at ht
    rcases ht with ht | ht
    · subst ht; exact ⟨hflag, hcount⟩
    · exact ih _ _ hflag (fun x hx => hall x (List.mem_cons_of_mem _ hx)) t ht

theorem power_ticks_above (b : ℚ) (hb0 : b ≠ 0) (rs : List Reading) :
    ∀ (d : Disk) (s : MonitorState), s.power_high = true → s.baseline_power = Metric.num b →
      (∀ x ∈ rs, ∃ p, x.power = Metric.num p ∧ increase p b > 30) →
      ∀ t ∈ ticks d s rs,
        t.state.power_high = true ∧ (titles t.alerts).count "CONSUMO ALTO" = 0 := by
  induction rs with
  | nil => intro d s _ _ _ t ht; simp [ticks] at ht
  | cons r rs ih =>
    intro d s hs hb hall t ht
    obtain ⟨p, hp, hgt⟩ := hall r (List.mem_cons_self _ _)
    have hb1 : (checkCpu (checkTemp s r.temp).1 r.cpu).1.baseline_power = Metric.num b := by
      rw [(checkCpu_frame _ _).2.2, (checkTemp_frame _ _).2.2]; exact hb
    have hs1 : (checkCpu (checkTemp s r.temp).1 r.cpu).1.power_high = true := by
      rw [(checkCpu_frame _ _).2.1, (checkTemp_frame _ _).2.1]; exact hs
    have hstep := checkPower_above _ p b hb1 hb0 hgt
    have hflag : (monitor d s r).state.power_high = true := by
      rw [monitor_state, hp]; exact hstep.1
    have hbase : (monitor d s r).state.baseline_power = Metric.num b := by
      rw [monitor_state, hp]; exact hstep.2.1
    have hcount : (titles (monitor d s r).alerts).count "CONSUMO ALTO" = 0 := by
      rw [count_power_monitor d s r _ (Or.inl rfl), hp, hstep.2.2, hs1]; rfl
    simp only [ticks, List.mem_cons] at ht
    rcases ht with ht | ht
    · subst ht; exact ⟨hflag, hcount⟩
    · exact ih _ _ hflag hbase (fun x hx => hall x (List.mem_cons_of_mem _ hx)) t ht

/-- C1 as amended (edge-triggering). For each of the three conditions, from a state
whose flag is false, a run of one or more ticks whose reading stays above the threshold
(temperature above 85, CPU above 80, power whose relative increase over a baseline `b`
that is already set, evaluated in double arithmetic as `monitor()` does, is above 30)
sends the "entered" alert exactly once, on the first tick, sends none on the later
ticks, and leaves the flag true after every tick. -/
theorem edge_triggering (d : Disk) (s : MonitorState) (r : Reading) (rs : List Reading)
    (b : ℚ) :
    (s.temp_high = false →
      (∀ x ∈ r :: rs, ∃ v, x.temp = Metric.num v ∧ v > TEMP_THRESHOLD) →
      (titles (monitor d s r).alerts).count "TEMPERATURA ALTA" = 1 ∧
      (∀ t ∈ ticks (monitor d s r).disk (monitor d s r).state rs,
        (titles t.alerts).count "TEMPERATURA ALTA" = 0) ∧
      (titles (alertsOf (ticks d s (r :: rs)))).count "TEMPERATURA ALTA" = 1 ∧
      (∀ t ∈ ticks d s (r :: rs), t.state.temp_high = true)) ∧
    (s.cpu_high = false →
      (∀ x ∈ r :: rs, ∃ v, x.cpu = Metric.num v ∧ v > 80) →
      (titles (monitor d s r).alerts).count "CPU ALTA" = 1 ∧
      (∀ t ∈ ticks (monitor d s r).disk (monitor d s r).state rs,
        (titles t.alerts).count "CPU ALTA" = 0) ∧
      (titles (alertsOf (ticks d s (r :: rs)))).count "CPU ALTA" = 1 ∧
      (∀ t ∈ ticks d s (r :: rs), t.state.cpu_high = true)) ∧
    (s.power_high = false → s.baseline_power = Metric.num b → b ≠ 0 →
      (∀ x ∈ r :: rs, ∃ p, x.power = Metric.num p ∧ increase p b > 30) →
      (titles (monitor d s r).alerts).count "CONSUMO ALTO" = 1 ∧
      (∀ t ∈ ticks (monitor d s r).disk (monitor d s r).state rs,
        (titles t.alerts).count "CONSUMO ALTO" = 0) ∧
      (titles (alertsOf (ticks d s (r :: rs)))).count "CONSUMO ALTO" = 1 ∧
      (∀ t ∈ ticks d s (r :: rs), t.state.power_high = true)) := by
  refine ⟨?_, ?_, ?_⟩
  · intro hs hall
    obtain ⟨v, hv, hgt⟩ := hall r (List.mem_cons_self _ _)
    have hstep := checkTemp_above s v hgt
    have hflag : (monitor d s r).state.temp_high = true := by
      rw [monitor_temp_high, hv]; exact hstep.1
    have hcount : (titles (monitor d s r).alerts).count "TEMPERATURA ALTA" = 1 := by
      rw [count_temp_monitor d s r _ (Or.inl rfl), hv, hstep.2, hs]; rfl
    have hrest := temp_ticks_above rs (monitor d s r).disk (monitor d s r).state hflag
      (fun x hx => hall x (List.mem_cons_of_mem _ hx))
    have htot := count_alertsOf_zero "TEMPERATURA ALTA" _ (fun t ht => (hrest t ht).2)
    refine ⟨hcount, fun t ht => (hrest t ht).2, ?_, ?_⟩
    · simp only [ticks, alertsOf, titles, List.map_append, List.count_append] at hcount htot ⊢
      omega
    · intro t ht
      simp only [ticks, List.mem_cons] at ht
      rcases ht with ht | ht
      · subst ht; exact hflag
      · exact (hrest t ht).1
  · intro hs hall
    obtain ⟨v, hv, hgt⟩ := hall r (List.mem_cons_self _ _)
    have hs1 : (checkTemp s r.temp).1.cpu_high = false := by
      rw [(checkTemp_frame _ _).1]; exact hs
    have hstep := checkCpu_above (checkTemp s r.temp).1 v hgt
    have hflag : (monitor d s r).state.cpu_high = true := by
      rw [monitor_cpu_high, hv]; exact hstep.1
    have hcount : (titles (monitor d s r).alerts).count "CPU ALTA" = 1 := by
      rw [count_cpu_monitor d s r _ (Or.inl rfl), hv, hstep.2, hs1]; rfl
    have hrest := cpu_ticks_above rs (monitor d s r).disk (monitor d s r).state hflag
      (fun x hx => hall x (List.mem_cons_of_mem _ hx))
    have htot := count_alertsOf_zero "CPU ALTA" _ (fun t ht => (hrest t ht).2)
    refine ⟨hcount, fun t ht => (hrest t ht).2, ?_, ?_⟩
    · simp only [ticks, alertsOf, titles, List.map_append, List.count_append] at hcount htot ⊢
      omega
    · intro t ht
      simp only [ticks, List.mem_cons] at ht
      rcases ht with ht | ht
      · subst ht; exact hflag
      · exact (hrest t ht).1
  · intro hs hb hb0 hall
    obtain ⟨p, hp, hgt⟩ := hall r (List.mem_cons_self _ _)
    have hb1 : (checkCpu (checkTemp s r.temp).1 r.cpu).1.baseline_power = Metric.num b := by
      rw [(checkCpu_frame _ _).2.2, (checkTemp_frame _ _).2.2]; exact hb
    have hs1 : (checkCpu (checkTemp s r.temp).1 r.cpu).1.power_high = false := by
      rw [(checkCpu_frame _ _).2.1, (checkTemp_frame _ _).2.1]; exact hs
    have hstep := checkPower_above _ p b hb1 hb0 hgt
    have hflag : (monitor d s r).state.power_high = true := by
      rw [monitor_state, hp]; exact hstep.1
    have hbase : (monitor d s r).state.baseline_power = Metric.num b := by
      rw [monitor_state, hp]; exact hstep.2.1
    have hcount : (titles (monitor d s r).alerts).count "CONSUMO ALTO" = 1 := by
      rw [count_power_monitor d s r _ (Or.inl rfl), hp, hstep.2.2, hs1]; rfl
    have hrest := power_ticks_above b hb0 rs (monitor d s r).disk (monitor d s r).state hflag
      hbase (fun x hx => hall x (List.mem_cons_of_mem _ hx))
    have htot := count_alertsOf_zero "CONSUMO ALTO" _ (fun t ht => (hrest t ht).2)
    refine ⟨hcount, fun t ht => (hrest t ht).2, ?_, ?_⟩
    · simp only [ticks, alertsOf, titles, List.map_append, List.count_append] at hcount htot ⊢
      omega
    · intro t ht
      simp only [ticks, List.mem_cons] at ht
      rcases ht with ht | ht
      · subst ht; exact hflag
      · exact (hrest t ht).1


/-- C1, counterexample. The baseline 5.348 and the reading 6.9524, as the doubles
that `getPowerConsumption()` returns for the counter values 5348000 and 6952400: the
reading is more than 30% above the baseline, yet the increase computed in double
arithmetic is exactly 30, so from a state with `power_high` false `monitor()` sends no
"CONSUMO ALTO" alert and leaves the flag false. -/
theorem edge_triggering_counterexample :
    roundDouble (5348000 / 1000000) = power5348 ∧
    roundDouble (6952400 / 1000000) = power69524 ∧
    (power69524 - power5348) / power5348 * 100 > 30 ∧
    (monitor freshDisk { calmState with baseline_power := Metric.num power5348 }
        ⟨Metric.null, Metric.num 10, Metric.num power69524⟩).state.power_high = false ∧
    (monitor freshDisk { calmState with baseline_power := Metric.num power5348 }
        ⟨Metric.null, Metric.num 10, Metric.num power69524⟩).alerts = [] := by
  refine ⟨roundDouble_5348, roundDouble_69524, by norm_num [power69524, power5348], ?_, ?_⟩
  · have h0 : power5348 ≠ 0 := by norm_num [power5348]
    have h1 : power69524 ≠ 0 := by norm_num [power69524]
    norm_num [monitor, monitorBody, checkTemp, checkCpu, checkPower, setBaseline,
      comparePower, calmState, Metric.truthy, Metric.gt, Metric.le, Metric.toNumber,
      increase_69524_5348, h0, h1]
  · have h0 : power5348 ≠ 0 := by norm_num [power5348]
    have h1 : power69524 ≠ 0 := by norm_num [power69524]
    norm_num [monitor, monitorBody, checkTemp, checkCpu, checkPower, setBaseline,
      comparePower, calmState, Metric.truthy, Metric.gt, Metric.le, Metric.toNumber,
      increase_69524_5348, h0, h1]

/-- Witness for C1: two ticks above all three thresholds from a calm state with
baseline 40. -/
theorem edge_triggering_witness :
    (titles (alertsOf (ticks freshDisk calmState
        [⟨Metric.num 90, Metric.num 95, Metric.num 53⟩,
         ⟨Metric.num 86, Metric.num 81, Metric.num 60⟩]))).count "TEMPERATURA ALTA" = 1 ∧
    (titles (alertsOf (ticks freshDisk calmState
        [⟨Metric.num 90, Metric.num 95, Metric.num 53⟩,
         ⟨Metric.num 86, Metric.num 81, Metric.num 60⟩]))).count "CPU ALTA" = 1 ∧
    (titles (alertsOf (ticks freshDisk calmState
        [⟨Metric.num 90, Metric.num 95, Metric.num 53⟩,
         ⟨Metric.num 86, Metric.num 81, Metric.num 60⟩]))).count "CONSUMO ALTO" = 1 := by
  have h := edge_triggering freshDisk calmState ⟨Metric.num 90, Metric.num 95, Metric.num 53⟩
    [⟨Metric.num 86, Metric.num 81, Metric.num 60⟩] 40
  refine ⟨(h.1 rfl ?_).2.2.1, (h.2.1 rfl ?_).2.2.1, (h.2.2 rfl rfl (by norm_num) ?_).2.2.1⟩
  · intro x hx
    simp only [List.mem_cons, List.mem_singleton, List.not_mem_nil, or_false] at hx
    rcases hx with rfl | rfl
    · exact ⟨90, rfl, by norm_num [TEMP_THRESHOLD]⟩
    · exact ⟨86, rfl, by norm_num [TEMP_THRESHOLD]⟩
  · intro x hx
    simp only [List.mem_cons, List.mem_singleton, List.not_mem_nil, or_false] at hx
    rcases hx with rfl | rfl
    · exact ⟨95, rfl, by norm_num⟩
    · exact ⟨81, rfl, by norm_num⟩
  · intro x hx
    simp only [List.mem_cons, List.mem_singleton, List.not_mem_nil, or_false] at hx
    rcases hx with rfl | rfl
    · exact ⟨53, rfl, by rw [increase_53_40]; norm_num⟩
    · exact ⟨60, rfl, by rw [increase_60_40]; norm_num⟩

/-! ## The temperature rule at a reading of zero -/

/-- C2, the code at the failing input. With `temp_high` true and a temperature reading
of 0, which is at most the threshold, `monitor()` sends no alert and leaves `temp_high`
true: the guard `temp && ...` takes the number 0 for a missing reading. -/
theorem temperature_zero_keeps_alarm :
    (0 : ℚ) ≤ TEMP_THRESHOLD ∧
    (monitor freshDisk alarmState ⟨Metric.num 0, Metric.num 90, Metric.null⟩).state.temp_high
      = true ∧
    (monitor freshDisk alarmState ⟨Metric.num 0, Metric.num 90, Metric.null⟩).alerts = [] := by
  norm_num [monitor, monitorBody, checkTemp, checkCpu, checkPower, setBaseline, comparePower,
    alarmState, TEMP_THRESHOLD, Metric.truthy, Metric.gt, Metric.le, Metric.toNumber]


/-- The temperature rule of the specification holds for every non-zero reading: the
flag is set with one "TEMPERATURA ALTA" alert when it was false and the reading is
above the threshold, cleared with one "TEMPERATURA NORMALE" alert when it was true and
the reading is at most the threshold, and otherwise nothing happens. -/
theorem checkTemp_rule_of_ne_zero (s : MonitorState) (v : ℚ) (hv : v ≠ 0) :
    (s.temp_high = false → v > TEMP_THRESHOLD →
      (checkTemp s (Metric.num v)).1 = { s with temp_high := true } ∧
      titles (checkTemp s (Metric.num v)).2 = ["TEMPERATURA ALTA"]) ∧
    (s.temp_high = true → v ≤ TEMP_THRESHOLD →
      (checkTemp s (Metric.num v)).1 = { s with temp_high := false } ∧
      titles (checkTemp s (Metric.num v)).2 = ["TEMPERATURA NORMALE"]) ∧
    (¬ (s.temp_high = false ∧ v > TEMP_THRESHOLD) →
      ¬ (s.temp_high = true ∧ v ≤ TEMP_THRESHOLD) →
      checkTemp s (Metric.num v) = (s, [])) := by
  refine ⟨?_, ?_, ?_⟩
  · intro hs hgt
    have h2 : TEMP_THRESHOLD < v := hgt
    simp [checkTemp, titles, Metric.truthy, Metric.gt, Metric.toNumber, hv, hs, h2]
  · intro hs hle
    simp [checkTemp, titles, Metric.truthy, Metric.gt, Metric.le, Metric.toNumber, hv, hs, hle]
  · intro h1 h2
    cases hs : s.temp_high
    · have h3 : ¬ TEMP_THRESHOLD < v := fun h => h1 ⟨hs, h⟩
      simp [checkTemp, Metric.truthy, Metric.gt, Metric.le, Metric.toNumber, hs, h3]
    · have h3 : ¬ v ≤ TEMP_THRESHOLD := fun h => h2 ⟨hs, h⟩
      simp [checkTemp, Metric.truthy, Metric.gt, Metric.le, Metric.toNumber, hs, h3]

/-! ## Readings exactly at a threshold -/

theorem checkTemp_at_threshold (s : MonitorState) :
    (checkTemp s (Metric.num TEMP_THRESHOLD)).1.temp_high = false ∧
    (titles (checkTemp s (Metric.num TEMP_THRESHOLD)).2).count "TEMPERATURA ALTA" = 0 ∧
    (titles (checkTemp s (Metric.num TEMP_THRESHOLD)).2).count "TEMPERATURA NORMALE"
      = if s.temp_high then 1 else 0 := by
  cases hs : s.temp_high
  · norm_num [checkTemp, titles, Metric.truthy, Metric.gt, Metric.le, Metric.toNumber,
      TEMP_THRESHOLD, hs]
  · norm_num [checkTemp, titles, Metric.truthy, Metric.gt, Metric.le, Metric.toNumber,
      TEMP_THRESHOLD, hs, List.count_cons]
    decide

theorem checkCpu_at_threshold (s : MonitorState) :
    (checkCpu s (Metric.num 80)).1.cpu_high = false ∧
    (titles (checkCpu s (Metric.num 80)).2).count "CPU ALTA" = 0 ∧
    (titles (checkCpu s (Metric.num 80)).2).count "CPU NORMALE"
      = if s.cpu_high then 1 else 0 := by
  cases hs : s.cpu_high
  · norm_num [checkCpu, titles, Metric.gt, Metric.le, Metric.toNumber, hs]
  · norm_num [checkCpu, titles, Metric.gt, Metric.le, Metric.toNumber, hs, List.count_cons]
    decide

theorem checkPower_at_threshold (s : MonitorState) (b : ℚ)
    (hb : s.baseline_power = Metric.num b) (hb0 : b ≠ 0) (hdb : IsDouble b)
    (hdp : IsDouble (b + 30 / 100 * b)) :
    (checkPower s (Metric.num (b + 30 / 100 * b))).1.power_high = false ∧
    (titles (checkPower s (Metric.num (b + 30 / 100 * b))).2).count "CONSUMO ALTO" = 0 ∧
    (titles (checkPower s (Metric.num (b + 30 / 100 * b))).2).count "CONSUMO NORMALE"
      = if s.power_high then 1 else 0 := by
  have hinc : increase (b + 30 / 100 * b) b = 30 := increase_at_threshold b hb0 hdb hdp
  have hp0 : b + 30 / 100 * b ≠ 0 := by
    intro h
    apply hb0
    linarith
  have hset : setBaseline s (Metric.num (b + 30 / 100 * b)) = s := by
    simp [setBaseline, hb, Metric.truthy, hb0]
  cases hs : s.power_high <;>
    simp [checkPower, hset, comparePower, hb, titles, hinc, hp0, hb0, hs]

/-- C3 (hysteresis symmetry at the boundary). A reading exactly at the threshold
(temperature 85, CPU 80, power exactly 30% above a set baseline `b`, both of them
doubles) leaves the flag false and sends no "entered" alert; when the flag was true it
is cleared with exactly one "cleared" alert, and when it was false no "cleared" alert
is sent either. In double arithmetic the increase of such a reading comes out as
exactly 30. -/
theorem boundary_is_normal (d : Disk) (s : MonitorState) (r : Reading) (b : ℚ) :
    (r.temp = Metric.num TEMP_THRESHOLD →
      (monitor d s r).state.temp_high = false ∧
      (titles (monitor d s r).alerts).count "TEMPERATURA ALTA" = 0 ∧
      (titles (monitor d s r).alerts).count "TEMPERATURA NORMALE"
        = if s.temp_high then 1 else 0) ∧
    (r.cpu = Metric.num 80 →
      (monitor d s r).state.cpu_high = false ∧
      (titles (monitor d s r).alerts).count "CPU ALTA" = 0 ∧
      (titles (monitor d s r).alerts).count "CPU NORMALE"
        = if s.cpu_high then 1 else 0) ∧
    (s.baseline_power = Metric.num b → b ≠ 0 → IsDouble b → IsDouble (b + 30 / 100 * b) →
      r.power = Metric.num (b + 30 / 100 * b) →
      (monitor d s r).state.power_high = false ∧
      (titles (monitor d s r).alerts).count "CONSUMO ALTO" = 0 ∧
      (titles (monitor d s r).alerts).count "CONSUMO NORMALE"
        = if s.power_high then 1 else 0) := by
  refine ⟨?_, ?_, ?_⟩
  · intro hr
    have h := checkTemp_at_threshold s
    rw [monitor_temp_high, count_temp_monitor d s r _ (Or.inl rfl),
      count_temp_monitor d s r _ (Or.inr rfl), hr]
    exact h
  · intro hr
    have h := checkCpu_at_threshold (checkTemp s r.temp).1
    rw [(checkTemp_frame _ _).1] at h
    rw [monitor_cpu_high, count_cpu_monitor d s r _ (Or.inl rfl),
      count_cpu_monitor d s r _ (Or.inr rfl), hr]
    exact h
  · intro hb hb0 hdb hdp hr
    have hb1 : (checkCpu (checkTemp s r.temp).1 r.cpu).1.baseline_power = Metric.num b := by
      rw [(checkCpu_frame _ _).2.2, (checkTemp_frame _ _).2.2]; exact hb
    have h := checkPower_at_threshold _ b hb1 hb0 hdb hdp
    rw [(checkCpu_frame _ _).2.1, (checkTemp_frame _ _).2.1] at h
    rw [monitor_state, count_power_monitor d s r _ (Or.inl rfl),
      count_power_monitor d s r _ (Or.inr rfl), hr]
    exact h

/-- Witness for C3: all three flags raised over a baseline of 40, and the reading
85 degrees, 80 percent, 52 watts. -/
theorem boundary_is_normal_witness :
    (titles (monitor freshDisk alarmState
        ⟨Metric.num TEMP_THRESHOLD, Metric.num 80, Metric.num (40 + 30 / 100 * 40)⟩).alerts).count
      "TEMPERATURA NORMALE" = 1 ∧
    (titles (monitor freshDisk alarmState
        ⟨Metric.num TEMP_THRESHOLD, Metric.num 80, Metric.num (40 + 30 / 100 * 40)⟩).alerts).count
      "CPU NORMALE" = 1 ∧
    (titles (monitor freshDisk alarmState
        ⟨Metric.num TEMP_THRESHOLD, Metric.num 80, Metric.num (40 + 30 / 100 * 40)⟩).alerts).count
      "CONSUMO NORMALE" = 1 :=
  have h := boundary_is_normal freshDisk alarmState
    ⟨Metric.num TEMP_THRESHOLD, Metric.num 80, Metric.num (40 + 30 / 100 * 40)⟩ 40
  ⟨(h.1 rfl).2.2, (h.2.1 rfl).2.2,
    (h.2.2 rfl (by norm_num) (isDouble_of_int 40 (by norm_num))
      ⟨52, 0, by norm_num, by norm_num, by norm_num, by norm_num⟩ rfl).2.2⟩


/-! ## Missing readings -/

/-- C7 (absent-temperature neutrality). With `temp_high` true and a tick on which
`getCPUTemp()` returned `null`, `monitor()` sends neither "TEMPERATURA NORMALE" nor
"TEMPERATURA ALTA" and `temp_high` is still true afterwards. -/
theorem absent_temperature_neutral (d : Disk) (s : MonitorState) (r : Reading)
    (hs : s.temp_high = true) (hr : r.temp = Metric.null) :
    (titles (monitor d s r).alerts).count "TEMPERATURA NORMALE" = 0 ∧
    (titles (monitor d s r).alerts).count "TEMPERATURA ALTA" = 0 ∧
    (monitor d s r).state.temp_high = true := by
  rw [monitor_temp_high, count_temp_monitor d s r _ (Or.inl rfl),
    count_temp_monitor d s r _ (Or.inr rfl), hr]
  simp [checkTemp, titles, Metric.truthy, hs]

/-- Witness for C7: every flag raised, temperature missing, CPU and power present. -/
theorem absent_temperature_neutral_witness :
    (titles (monitor freshDisk alarmState
        ⟨Metric.null, Metric.num 50, Metric.num 41⟩).alerts).count "TEMPERATURA NORMALE" = 0 ∧
    (titles (monitor freshDisk alarmState
        ⟨Metric.null, Metric.num 50, Metric.num 41⟩).alerts).count "TEMPERATURA ALTA" = 0 ∧
    (monitor freshDisk alarmState
        ⟨Metric.null, Metric.num 50, Metric.num 41⟩).state.temp_high = true :=
  absent_temperature_neutral freshDisk alarmState ⟨Metric.null, Metric.num 50, Metric.num 41⟩
    rfl rfl

/-- C8, the code at the failing input. With `cpu_high` true and a tick on which all
three readers returned `null`, the CPU check still runs its comparison: `null <= 80`
holds (`null` converts to 0), so `cpu_high` is cleared and one "CPU NORMALE" alert is
sent. The temperature and power flags and the baseline are unchanged. -/
theorem all_absent_clears_cpu :
    (monitor freshDisk alarmState ⟨Metric.null, Metric.null, Metric.null⟩).state
      = { alarmState with cpu_high := false } ∧
    (monitor freshDisk alarmState ⟨Metric.null, Metric.null, Metric.null⟩).alerts
      = [{ title := "CPU NORMALE", values := [Metric.null], color := 0x51cf66 }] := by
  norm_num [monitor, monitorBody, checkTemp, checkCpu, checkPower, setBaseline, comparePower,
    alarmState, Metric.truthy, Metric.gt, Metric.le, Metric.toNumber]

/-- With `cpu_high` false, a tick on which all three readers returned `null` changes
nothing and sends nothing. -/
theorem all_absent_neutral_of_cpu_low (d : Disk) (s : MonitorState)
    (hs : s.cpu_high = false) :
    (monitor d s ⟨Metric.null, Metric.null, Metric.null⟩).state = s ∧
    (monitor d s ⟨Metric.null, Metric.null, Metric.null⟩).alerts = [] := by
  cases hb : s.baseline_power <;>
    norm_num [monitor, monitorBody, checkTemp, checkCpu, checkPower, setBaseline, comparePower,
      Metric.truthy, Metric.gt, Metric.le, Metric.toNumber, hs, hb]

/-! ## Establishing the baseline -/

/-- C9, counterexamples. A power reading of 0 is present but falsy, so it is not taken
as the baseline; and from a state with no baseline but `power_high` true, the tick that
sets the baseline also clears `power_high` and sends "CONSUMO NORMALE". -/
theorem baseline_establishment_counterexample :
    (monitor freshDisk initialState
        ⟨Metric.null, Metric.num 10, Metric.num 0⟩).state.baseline_power = Metric.null ∧
    (monitor freshDisk { initialState with power_high := true }
        ⟨Metric.null, Metric.num 10, Metric.num 40⟩).state
      = { initialState with baseline_power := Metric.num 40 } ∧
    titles (monitor freshDisk { initialState with power_high := true }
        ⟨Metric.null, Metric.num 10, Metric.num 40⟩).alerts = ["CONSUMO NORMALE"] := by
  norm_num [monitor, monitorBody, checkTemp, checkCpu, checkPower, setBaseline, comparePower,
    initialState, titles, increase_self, Metric.truthy, Metric.gt, Metric.le,
    Metric.toNumber]

theorem checkPower_first_reading (s : MonitorState) (p : ℚ)
    (hb : s.baseline_power = Metric.null) (hs : s.power_high = false) (hp : p ≠ 0) :
    checkPower s (Metric.num p) = ({ s with baseline_power := Metric.num p }, []) := by
  have hinc : increase p p = 0 := increase_self p
  simp [checkPower, setBaseline, comparePower, hb, hs, hp, hinc, Metric.truthy]

/-- C9 as amended (baseline establishment). From a state with no baseline and
`power_high` false, a tick with a non-zero power reading `p` sets `baseline_power` to
exactly `p`, sends no power alert and leaves `power_high` false. On the readings 40,
53, 50 from the initial state: the baseline becomes 40 with no alert, then one
"CONSUMO ALTO" alert, then one "CONSUMO NORMALE" alert. -/
theorem baseline_establishment (d : Disk) (s : MonitorState) (r : Reading) (p : ℚ)
    (hb : s.baseline_power = Metric.null) (hs : s.power_high = false)
    (hr : r.power = Metric.num p) (hp : p ≠ 0) :
    ((monitor d s r).state.baseline_power = Metric.num p ∧
      (monitor d s r).state.power_high = false ∧
      (titles (monitor d s r).alerts).count "CONSUMO ALTO" = 0 ∧
      (titles (monitor d s r).alerts).count "CONSUMO NORMALE" = 0) ∧
    (ticks d initialState [⟨Metric.null, Metric.num 10, Metric.num 40⟩,
        ⟨Metric.null, Metric.num 10, Metric.num 53⟩,
        ⟨Metric.null, Metric.num 10, Metric.num 50⟩]).map
      (fun t => (t.state.baseline_power, t.state.power_high, titles t.alerts))
      = [(Metric.num 40, false, []), (Metric.num 40, true, ["CONSUMO ALTO"]),
         (Metric.num 40, false, ["CONSUMO NORMALE"])] := by
  constructor
  · have hb1 : (checkCpu (checkTemp s r.temp).1 r.cpu).1.baseline_power = Metric.null := by
      rw [(checkCpu_frame _ _).2.2, (checkTemp_frame _ _).2.2]; exact hb
    have hs1 : (checkCpu (checkTemp s r.temp).1 r.cpu).1.power_high = false := by
      rw [(checkCpu_frame _ _).2.1, (checkTemp_frame _ _).2.1]; exact hs
    have h := checkPower_first_reading _ p hb1 hs1 hp
    rw [monitor_state, count_power_monitor d s r _ (Or.inl rfl),
      count_power_monitor d s r _ (Or.inr rfl), hr, h]
    simp [hs1, titles]
  · norm_num [ticks, monitor, monitorBody, checkTemp, checkCpu, checkPower, setBaseline,
      comparePower, initialState, titles, increase_self, increase_53_40, increase_50_40,
      Metric.truthy, Metric.gt, Metric.le, Metric.toNumber]

/-- Witness for C9: the initial state and a first power reading of 40. -/
theorem baseline_establishment_witness :
    (monitor freshDisk initialState
        ⟨Metric.num 50, Metric.num 10, Metric.num 40⟩).state.baseline_power = Metric.num 40 ∧
    (titles (monitor freshDisk initialState
        ⟨Metric.num 50, Metric.num 10, Metric.num 40⟩).alerts).count "CONSUMO ALTO" = 0 :=
  have h := (baseline_establishment freshDisk initialState
    ⟨Metric.num 50, Metric.num 10, Metric.num 40⟩ 40 rfl rfl rfl (by norm_num)).1
  ⟨h.1, h.2.2.1⟩


/-! ## The invariant linking `power_high` and the baseline -/

theorem setBaseline_num (s : MonitorState) (p : Metric) (b : ℚ)
    (hb : s.baseline_power = Metric.num b) (hb0 : b ≠ 0) : setBaseline s p = s := by
  simp [setBaseline, hb, Metric.truthy, hb0]

theorem comparePower_inv (s : MonitorState) (p : Metric) (h : PowerInv s) :
    PowerInv (comparePower s p).1 := by
  unfold comparePower
  split
  · rename_i q b hb
    split_ifs with h1 h2 h3
    · intro _; exact ⟨b, hb, h1.2⟩
    · intro hc; simp at hc
    · exact h
    · exact h
  · exact h

theorem checkPower_inv (s : MonitorState) (p : Metric) (h : PowerInv s) :
    PowerInv (checkPower s p).1 := by
  unfold checkPower
  apply comparePower_inv
  intro hs
  rw [(setBaseline_frame s p).2.2] at hs
  obtain ⟨b, hb, hb0⟩ := h hs
  rw [setBaseline_num s p b hb hb0]
  exact ⟨b, hb, hb0⟩

theorem monitor_inv (d : Disk) (s : MonitorState) (r : Reading) (h : PowerInv s) :
    PowerInv (monitor d s r).state := by
  rw [monitor_state]
  apply checkPower_inv
  intro hs
  rw [(checkCpu_frame _ _).2.1, (checkTemp_frame _ _).2.1] at hs
  rw [(checkCpu_frame _ _).2.2, (checkTemp_frame _ _).2.2]
  exact h hs

theorem stateAfter_inv (rs : List Reading) :
    ∀ (d : Disk) (s : MonitorState), PowerInv s → PowerInv (stateAfter d s rs) := by
  induction rs with
  | nil => intro d s h; exact h
  | cons r rs ih => intro d s h; exact ih _ _ (monitor_inv d s r h)

/-- C10 (reachable-state invariant). In every state reached from the initial state by
a finite sequence of `monitor()` ticks with arbitrary readings, whatever the disk,
`power_high = true` implies that `baseline_power` is a non-zero number. -/
theorem power_high_has_baseline (d : Disk) (rs : List Reading)
    (h : (stateAfter d initialState rs).power_high = true) :
    ∃ b : ℚ, (stateAfter d initialState rs).baseline_power = Metric.num b ∧ b ≠ 0 :=
  stateAfter_inv rs d initialState (fun h0 => by simp [initialState] at h0) h

/-- Witness for C10: after the power readings 40 and 53 the flag is raised. -/
theorem power_high_has_baseline_witness :
    (stateAfter freshDisk initialState
        [⟨Metric.null, Metric.num 10, Metric.num 40⟩,
         ⟨Metric.null, Metric.num 10, Metric.num 53⟩]).power_high = true ∧
    ∃ b : ℚ, (stateAfter freshDisk initialState
        [⟨Metric.null, Metric.num 10, Metric.num 40⟩,
         ⟨Metric.null, Metric.num 10, Metric.num 53⟩]).baseline_power = Metric.num b ∧ b ≠ 0 :=
  have h0 : (stateAfter freshDisk initialState
        [⟨Metric.null, Metric.num 10, Metric.num 40⟩,
         ⟨Metric.null, Metric.num 10, Metric.num 53⟩]).power_high = true := by
    norm_num [stateAfter, monitor, monitorBody, checkTemp, checkCpu, checkPower, setBaseline,
      comparePower, initialState, increase_self, increase_53_40, Metric.truthy, Metric.gt,
      Metric.le, Metric.toNumber]
  ⟨h0, power_high_has_baseline freshDisk _ h0⟩

/-! ## The state file: save, load, restart -/

theorem jsonOf_toJS (s : MonitorState) (h : s.baseline_power ≠ Metric.nan) :
    jsonOf s.toJS = s.toJS := by
  cases hb : s.baseline_power with
  | nan => exact absurd hb h
  | null => simp [MonitorState.toJS, Metric.toJS, jsonOf, jsonOfFields, hb]
  | num q => simp [MonitorState.toJS, Metric.toJS, jsonOf, jsonOfFields, hb]

theorem ofJS_toJS (s : MonitorState) : MonitorState.ofJS s.toJS = some s := by
  obtain ⟨c, t, p, b⟩ := s
  cases b <;> simp [MonitorState.toJS, Metric.toJS, MonitorState.ofJS]

theorem loadState_text (w : Bool) (v m : JSVal) :
    loadState { file := FileState.text (FileText.json v), writable := w } m = Except.ok v := by
  simp [loadState, loadStateBody, existsSync, readFileSync, JSON.parse, bind, Except.bind, pure,
    Except.pure]

theorem saveState_writable (d : Disk) (v : JSVal) (h : d.writable = true) :
    saveState d v = { file := FileState.text (FileText.json (jsonOf v)), writable := true } := by
  simp [saveState, writeFileSync, JSON.stringify, h]

/-- C6 (restart round trip). For every state record whose baseline is `null` or a
number, when the write succeeds, `saveState()` followed by `loadState()` leaves
`lastState` equal to the saved record, whatever it held before the load; read back as
a record by a restarted process, it is the same record. -/
theorem save_load_roundtrip (d : Disk) (s : MonitorState) (m : JSVal)
    (hw : d.writable = true) (hb : s.baseline_power ≠ Metric.nan) :
    loadState (saveState d s.toJS) m = Except.ok s.toJS ∧
    restart (saveState d s.toJS) = some s := by
  rw [saveState_writable d _ hw, jsonOf_toJS s hb]
  constructor
  · exact loadState_text _ _ _
  · unfold restart
    rw [loadState_text]
    exact ofJS_toJS s

/-- Witness for C6: the calm state with baseline 40 saved on a fresh disk. -/
theorem save_load_roundtrip_witness :
    loadState (saveState freshDisk calmState.toJS) initialState.toJS
      = Except.ok calmState.toJS ∧
    restart (saveState freshDisk calmState.toJS) = some calmState :=
  save_load_roundtrip freshDisk calmState initialState.toJS rfl (by simp [calmState])

/-- A baseline of `NaN` does not survive the round trip: it is written as `null`. -/
theorem save_load_nan :
    restart (saveState freshDisk { initialState with baseline_power := Metric.nan }.toJS)
      = some initialState := by
  simp [restart, saveState, writeFileSync, JSON.stringify, freshDisk, loadState, loadStateBody,
    existsSync, readFileSync, JSON.parse, bind, Except.bind, pure, Except.pure,
    MonitorState.toJS, Metric.toJS, jsonOf, jsonOfFields, MonitorState.ofJS, initialState]


/-- C5, counterexample. A state file whose text is the JSON document `null`, `42` or
the empty object parses without error, so `loadState()` at startup replaces `lastState` by
that value, which is not the zero-value record. -/
theorem corrupt_state_counterexample :
    (loadState { file := FileState.text (FileText.json JSVal.null), writable := true }
        initialState.toJS = Except.ok JSVal.null ∧
      JSVal.null ≠ initialState.toJS ∧ MonitorState.ofJS JSVal.null = none) ∧
    (loadState { file := FileState.text (FileText.json (JSVal.num 42)), writable := true }
        initialState.toJS = Except.ok (JSVal.num 42) ∧
      JSVal.num 42 ≠ initialState.toJS ∧ MonitorState.ofJS (JSVal.num 42) = none) ∧
    (loadState { file := FileState.text (FileText.json (JSVal.obj [])), writable := true }
        initialState.toJS = Except.ok (JSVal.obj []) ∧
      JSVal.obj [] ≠ initialState.toJS ∧ MonitorState.ofJS (JSVal.obj []) = none) := by
  refine ⟨⟨loadState_text _ _ _, ?_, rfl⟩, ⟨loadState_text _ _ _, ?_, rfl⟩,
    ⟨loadState_text _ _ _, ?_, rfl⟩⟩
  · simp [MonitorState.toJS]
  · simp [MonitorState.toJS]
  · simp [MonitorState.toJS]

/-- C5 as amended (state-file recovery). `loadState()` never raises. When the state
file is missing, cannot be read, or holds text that is not valid JSON, `lastState` is
left as it was, which at startup is the zero-value record. Text that is valid JSON
becomes the new `lastState` as parsed, whatever its shape. -/
theorem load_failure_keeps_state (d : Disk) (m : JSVal) :
    (∃ v, loadState d m = Except.ok v) ∧
    (d.file = FileState.missing ∨ d.file = FileState.unreadable ∨
        d.file = FileState.text FileText.invalid → loadState d m = Except.ok m) ∧
    (∀ v, d.file = FileState.text (FileText.json v) → loadState d m = Except.ok v) := by
  obtain ⟨f, w⟩ := d
  refine ⟨?_, ?_, ?_⟩
  · unfold loadState
    split
    · exact ⟨_, rfl⟩
    · exact ⟨_, rfl⟩
  · rintro (h | h | h) <;> simp only at h <;> subst h <;>
      simp [loadState, loadStateBody, existsSync, readFileSync, JSON.parse, bind, Except.bind,
        pure, Except.pure]
  · intro v h
    simp only at h
    subst h
    exact loadState_text _ _ _

/-- Witness for C5 as amended: no state file at startup. -/
theorem load_failure_keeps_state_witness :
    loadState freshDisk initialState.toJS = Except.ok initialState.toJS :=
  (load_failure_keeps_state freshDisk initialState.toJS).2.1 (Or.inl rfl)

/-! ## The baseline across ticks and restarts -/

theorem monitor_keeps_baseline (d : Disk) (s : MonitorState) (r : Reading) (b : ℚ)
    (hb : s.baseline_power = Metric.num b) (hb0 : b ≠ 0) :
    (monitor d s r).state.baseline_power = Metric.num b := by
  have hb1 : (checkCpu (checkTemp s r.temp).1 r.cpu).1.baseline_power = Metric.num b := by
    rw [(checkCpu_frame _ _).2.2, (checkTemp_frame _ _).2.2]; exact hb
  rw [monitor_state]
  unfold checkPower
  rw [(comparePower_frame _ _).2.2, setBaseline_num _ _ b hb1 hb0]
  exact hb1

theorem monitor_disk (d : Disk) (s : MonitorState) (r : Reading) (b : ℚ)
    (hw : d.writable = true) (hb : (monitor d s r).state.baseline_power = Metric.num b) :
    (monitor d s r).disk
      = { file := FileState.text (FileText.json (monitor d s r).state.toJS),
          writable := true } := by
  have h1 : (monitor d s r).disk = saveState d (monitor d s r).state.toJS := rfl
  rw [h1, saveState_writable d _ hw, jsonOf_toJS]
  rw [hb]; simp

theorem run_keeps_baseline (b : ℚ) (hb0 : b ≠ 0) (es : List Event) :
    ∀ (d : Disk) (s : MonitorState), d.writable = true →
      d.file = FileState.text (FileText.json s.toJS) → s.baseline_power = Metric.num b →
      ∃ d1 s1, run d s es = some (d1, s1) ∧ s1.baseline_power = Metric.num b := by
  induction es with
  | nil => intro d s _ _ hb; exact ⟨d, s, rfl, hb⟩
  | cons e es ih =>
    intro d s hw hf hb
    cases e with
    | tick r =>
      have hb1 := monitor_keeps_baseline d s r b hb hb0
      have hd1 := monitor_disk d s r b hw hb1
      simp only [run]
      apply ih
      · rw [hd1]
      · rw [hd1]
      · exact hb1
    | restart =>
      have hr : restart d = some s := by
        obtain ⟨f, w⟩ := d
        simp only at hf
        subst hf
        unfold restart
        rw [loadState_text]
        exact ofJS_toJS s
      simp only [run, hr]
      exact ih d s hw hf hb

/-- C4 (baseline immutability). Once a tick of `monitor()` has set `baseline_power`
from a power reading `R1` (the stored baseline was unset, `R1` is a non-zero number)
and saved it, every later sequence of ticks with arbitrary readings, interleaved with
restarts of the process that reload the saved state, ends in a state whose
`baseline_power` is still `R1`. -/
theorem baseline_immutable (d : Disk) (s : MonitorState) (r : Reading) (R1 : ℚ)
    (es : List Event) (hw : d.writable = true) (hs : s.baseline_power.truthy = false)
    (hr : r.power = Metric.num R1) (h1 : R1 ≠ 0) :
    (monitor d s r).state.baseline_power = Metric.num R1 ∧
    ∃ d1 s1, run (monitor d s r).disk (monitor d s r).state es = some (d1, s1) ∧
      s1.baseline_power = Metric.num R1 := by
  have hset : (monitor d s r).state.baseline_power = Metric.num R1 := by
    have hs1 : (checkCpu (checkTemp s r.temp).1 r.cpu).1.baseline_power.truthy = false := by
      rw [(checkCpu_frame _ _).2.2, (checkTemp_frame _ _).2.2]; exact hs
    rw [monitor_state]
    unfold checkPower
    rw [(comparePower_frame _ _).2.2, hr]
    have hp : (Metric.num R1).truthy = true := by simp [Metric.truthy, h1]
    unfold setBaseline
    rw [hs1, hp]
    rfl
  have hd := monitor_disk d s r R1 hw hset
  refine ⟨hset, run_keeps_baseline R1 h1 es _ _ ?_ ?_ hset⟩
  · rw [hd]
  · rw [hd]

/-- Witness for C4: baseline 40 learned at the first tick, then a tick at 90, a
restart, and a tick at 500. -/
theorem baseline_immutable_witness :
    ∃ d1 s1, run (monitor freshDisk initialState
          ⟨Metric.null, Metric.num 10, Metric.num 40⟩).disk
        (monitor freshDisk initialState ⟨Metric.null, Metric.num 10, Metric.num 40⟩).state
        [Event.tick ⟨Metric.null, Metric.num 10, Metric.num 90⟩, Event.restart,
         Event.tick ⟨Metric.null, Metric.num 10, Metric.num 500⟩] = some (d1, s1) ∧
      s1.baseline_power = Metric.num 40 :=
  (baseline_immutable freshDisk initialState ⟨Metric.null, Metric.num 10, Metric.num 40⟩ 40
    [Event.tick ⟨Metric.null, Metric.num 10, Metric.num 90⟩, Event.restart,
     Event.tick ⟨Metric.null, Metric.num 10, Metric.num 500⟩] rfl rfl rfl (by norm_num)).2

end ProxmoxMonitor
